import Mathlib

/-! Shallow embedding of the Smart Energy Monitor core
(src/backend/main.py and src/backend/services/ai_assistant.py).
Upstream collaborators (SMARD client, weather client, Ollama backend,
database) are modelled as explicit parameters: their possibly-null
return values become `Option` arguments, and the generative backend
call is described by an `OllamaOutcome` value. Python floats are
idealised as rationals; `round(x, n)` is modelled by round-half-to-even
on the exact rational value; code that would raise a runtime exception
is embedded in `Except Unit`. -/

/-- Python truthiness of a float-or-None value: `None` and `0.0` are falsy. -/
def optTruthy : Option ℚ → Bool
  | none => false
  | some x => if x = 0 then false else true

/-- Python `x or d` for a float-or-None `x`: the value when truthy, else `d`. -/
def orDefault (x : Option ℚ) (d : ℚ) : ℚ :=
  if optTruthy x then x.getD 0 else d

/-- Round half to even to an integer (Python `round` tie behaviour). -/
def rhe (y : ℚ) : ℤ :=
  let n := ⌊y⌋
  let f := y - (n : ℚ)
  if f < 1/2 then n
  else if 1/2 < f then n + 1
  else if n % 2 = 0 then n else n + 1

/-- Python `round(x, 4)` on the exact rational value. -/
def pyRound4 (x : ℚ) : ℚ := (rhe (x * 10000) : ℚ) / 10000

/-- Python `round(x, 2)` on the exact rational value. -/
def pyRound2 (x : ℚ) : ℚ := (rhe (x * 100) : ℚ) / 100

/-- Left-pad a digit string with zeros up to width `d`. -/
def padZeros (d : ℕ) (s : String) : String :=
  String.mk (List.replicate (d - s.length) '0') ++ s

/-- Python fixed-point formatting of a float with `d` fractional digits. -/
def fmtFixed (d : ℕ) (q : ℚ) : String :=
  let scaled : ℤ := rhe (q * (10 : ℚ) ^ d)
  let sign := if scaled < 0 then "-" else ""
  let a := scaled.natAbs
  sign ++ toString (a / 10 ^ d) ++ "." ++ padZeros d (toString (a % 10 ^ d))

/-- Python substring test `needle in haystack` on lists of characters. -/
def isSubstring : List Char → List Char → Bool
  | needle, [] => needle.isEmpty
  | needle, c :: t => needle.isPrefixOf (c :: t) || isSubstring needle t

/-- Python `min(xs, key=k)` starting from accumulator `b`: a later element
replaces the accumulator only when its key is strictly smaller, so the
first element attaining the minimum wins. -/
def pyMin1 {α : Type} (k : α → ℚ) : α → List α → α
  | b, [] => b
  | b, y :: ys => pyMin1 k (if k y < k b then y else b) ys

/-- Python `min(xs, key=k)` (`none` on the empty list). -/
def pyMinBy {α : Type} (k : α → ℚ) : List α → Option α
  | [] => none
  | x :: xs => some (pyMin1 k x xs)

/-- Python `max(xs, key=k)` starting from accumulator `b`: the first
element attaining the maximum wins. -/
def pyMax1 {α : Type} (k : α → ℚ) : α → List α → α
  | b, [] => b
  | b, y :: ys => pyMax1 k (if k b < k y then y else b) ys

/-- Python `max(xs, key=k)` (`none` on the empty list). -/
def pyMaxBy {α : Type} (k : α → ℚ) : List α → Option α
  | [] => none
  | x :: xs => some (pyMax1 k x xs)

/-- One forecast row as built by the backend (`timestamp`, `hour` label,
`price`, `co2`). -/
structure FPoint where
  timestamp : ℤ
  hour : String
  price : ℚ
  co2 : ℚ
deriving DecidableEq

/-- The `current` sub-dictionary of the assistant context built in
`ask_assistant` (main.py:330-335): the keys are always present, but the
stored values are the raw upstream results and may be null/empty. -/
structure CurrentData where
  price : Option ℚ
  co2 : Option ℚ
  mix : List (String × ℚ)
deriving DecidableEq

/-- The `grid_data` context dictionary handed to the assistant. -/
structure GridData where
  current : CurrentData
  average_price : Option ℚ
  forecast : List FPoint
deriving DecidableEq

/-- The normalized grid snapshot produced by `get_current_grid_data`
(main.py:96-136) after the fallback block. -/
structure Snapshot where
  price : ℚ
  co2 : ℚ
  energy_mix : List (String × ℚ)
deriving DecidableEq

/-- Assistant answer record (`answer`, `type`, `confidence`,
`processing_time_ms`). -/
structure AskResult where
  answer : String
  type : String
  confidence : String
  processing_time_ms : ℕ
deriving DecidableEq

/-- Outcome of the bounded network call to the Ollama backend:
`failure` covers timeout, network error and absent backend (the Python
`except` branch); `response` carries the HTTP status, the extracted
response text and the elapsed milliseconds. -/
inductive OllamaOutcome where
  | failure
  | response (status : ℕ) (body : String) (elapsed_ms : ℕ)
deriving DecidableEq

/-- The data embedded into the generative prompt by `_build_prompt`
(ai_assistant.py:124-148), kept as structured values rather than the
rendered German string. -/
structure PromptData where
  price : Option ℚ
  co2 : Option ℚ
  mixSolar : ℚ
  mixWind : ℚ
  mixCoal : ℚ
  cheapest : Option FPoint
  greenest : Option FPoint
  query : String

/-- Response of the forecast endpoint `get_price_forecast`
(main.py:143-187). -/
structure ForecastResponse where
  forecast : List FPoint
  hours : ℤ
  location : String

/-- Response of `get_device_recommendation` (main.py:283-312); the three
cost fields carry the `round(_, 2)` display values of the response dict. -/
structure RecoResult where
  recommendation : String
  best_time : String
  cost_now : ℚ
  cost_best : ℚ
  potential_savings : ℚ
deriving DecidableEq

/-- Default energy mix used by the fallback block (main.py:111-117). -/
def default_energy_mix : List (String × ℚ) :=
  [("solar", 42), ("wind", 28), ("coal", 15), ("gas", 10), ("biomass", 5)]

/-- `sum(energy_mix.values())`. -/
def mixSum (m : List (String × ℚ)) : ℚ := (m.map Prod.snd).sum

/-- Fallback block of `get_current_grid_data` (main.py:107-119): price
defaults to 0.28 when falsy, the mix defaults to the fixed mix when empty
or summing to zero, CO2 defaults to 320 when falsy. -/
def get_current_grid_data (price co2 : Option ℚ) (energy_mix : List (String × ℚ)) :
    Snapshot :=
  let price' := if optTruthy price then price.getD 0 else 28/100
  let energy_mix' :=
    if energy_mix = [] ∨ mixSum energy_mix = 0 then default_energy_mix else energy_mix
  let co2' := if optTruthy co2 then co2.getD 0 else 320
  { price := price', co2 := co2', energy_mix := energy_mix' }

/-- One synthetic forecast point of `get_price_forecast`
(main.py:155-173): `variation = (i % 12 - 6) * 0.01`, plus
`(i % 2 - 0.5) * 0.03` every fourth hour; the timestamp is
`now + i` hours in milliseconds; per-point CO2 is
`get_co2_intensity() or 350` (main.py:172). `fmtHour` stands for the
`strftime` hour label of the timestamp. -/
def synthPoint (fmtHour : ℤ → String) (rawCo2 : Option ℚ) (current_price : ℚ)
    (now : ℤ) (i : ℕ) : FPoint :=
  let variation := (((i % 12 : ℕ) : ℚ) - 6) * (1/100) +
    (if i % 4 = 0 then (((i % 2 : ℕ) : ℚ) - 1/2) * (3/100) else 0)
  let price := pyRound4 (current_price + variation)
  let ts := now + (i : ℤ) * 3600000
  { timestamp := ts, hour := fmtHour ts, price := price, co2 := orDefault rawCo2 350 }

/-- The loop `for i in range(hours)` of `get_price_forecast`
(main.py:155-173); a negative `hours` makes `range` empty. -/
def synthForecast (fmtHour : ℤ → String) (rawCo2 : Option ℚ) (current_price : ℚ)
    (now : ℤ) (hours : ℤ) : List FPoint :=
  (List.range hours.toNat).map (synthPoint fmtHour rawCo2 current_price now)

/-- The forecast endpoint `get_price_forecast` (main.py:143-187): the
base price is `get_current_price() or 0.30` (main.py:151) and the body
never raises, so the response is a plain record. -/
def get_price_forecast (fmtHour : ℤ → String) (rawCo2 rawPrice : Option ℚ)
    (now : ℤ) (hours : ℤ) (location : String) : ForecastResponse :=
  { forecast := synthForecast fmtHour rawCo2 (orDefault rawPrice (3/10)) now hours,
    hours := hours, location := location }

/-- Core of `get_device_recommendation` (main.py:297-312), with the
current price already resolved: first minimum of the forecast by price,
`cost_now = current_price * power`, `cost_cheapest` (0 on an empty
forecast via `{}.get("price", 0)`), `savings = cost_now - cost_cheapest`,
decision `"now"` iff `savings < 0.05`; cost fields are rounded to two
decimals for the response. -/
def device_recommendation (power current_price : ℚ) (forecast : List FPoint) :
    RecoResult :=
  let cheapest := pyMinBy FPoint.price forecast
  let cost_now := current_price * power
  let cost_cheapest := ((cheapest.map FPoint.price).getD 0) * power
  let savings := cost_now - cost_cheapest
  { recommendation := if savings < 1/20 then "now" else "wait",
    best_time := (cheapest.map FPoint.hour).getD "N/A",
    cost_now := pyRound2 cost_now,
    cost_best := pyRound2 cost_cheapest,
    potential_savings := pyRound2 savings }

/-- The endpoint `get_device_recommendation` (main.py:283-312): the
current price is `get_current_price() or 0.30` (main.py:295). -/
def get_device_recommendation (power : ℚ) (rawPrice : Option ℚ)
    (forecast : List FPoint) : RecoResult :=
  device_recommendation power (orDefault rawPrice (3/10)) forecast

/-- The `grid_data` context built by `ask_assistant` (main.py:323-338):
the raw upstream values are passed through unchanged, with a hardcoded
`average_price` of 0.30. -/
def ask_assistant_grid_data (price co2 : Option ℚ) (mix : List (String × ℚ))
    (forecast : List FPoint) : GridData :=
  { current := { price := price, co2 := co2, mix := mix },
    average_price := some (3/10), forecast := forecast }

/-- `_get_price_info` (ai_assistant.py:152-170): `if not price` catches
None and a zero price; otherwise the price is formatted with four
decimals and banded against `average_price` (default 0.30). -/
def get_price_info (data : GridData) : Except Unit String :=
  let price := data.current.price
  let avg := data.average_price.getD (3/10)
  if optTruthy price = false then
    Except.ok "Aktuelle Preisdaten sind nicht verfügbar."
  else
    let p := price.getD 0
    let status := if p < avg * (8/10) then "sehr günstig"
      else if p < avg then "günstig" else "teuer"
    let emoji := if p < avg * (8/10) then "💰"
      else if p < avg then "👍" else "⚠️"
    Except.ok (emoji ++ " Aktueller Strompreis: " ++ fmtFixed 4 p ++
      " €/kWh (" ++ status ++ ")")

/-- `_get_cheapest_time` (ai_assistant.py:172-178): guard on an empty
forecast, else first minimum by price. -/
def get_cheapest_time (data : GridData) : Except Unit String :=
  match pyMinBy FPoint.price data.forecast with
  | none => Except.ok "Keine Vorhersagedaten verfügbar."
  | some cheapest =>
    Except.ok ("⚡ Am günstigsten ist Strom heute um " ++ cheapest.hour ++
      ": " ++ fmtFixed 4 cheapest.price ++ " €/kWh")

/-- `_get_expensive_time` (ai_assistant.py:180-186): guard on an empty
forecast, else first maximum by price. -/
def get_expensive_time (data : GridData) : Except Unit String :=
  match pyMaxBy FPoint.price data.forecast with
  | none => Except.ok "Keine Vorhersagedaten verfügbar."
  | some expensive =>
    Except.ok ("🔴 Am teuersten ist Strom heute um " ++ expensive.hour ++
      ": " ++ fmtFixed 4 expensive.price ++ " €/kWh")

/-- `_get_greenest_time` (ai_assistant.py:188-194): guard on an empty
forecast, else first minimum by CO2. -/
def get_greenest_time (data : GridData) : Except Unit String :=
  match pyMinBy FPoint.co2 data.forecast with
  | none => Except.ok "Keine Vorhersagedaten verfügbar."
  | some greenest =>
    Except.ok ("🌱 Am grünsten ist Strom heute um " ++ greenest.hour ++
      ": " ++ fmtFixed 1 greenest.co2 ++ " g CO2/kWh")

/-- `_get_co2_info` (ai_assistant.py:196-213): `if not co2` catches None
and a zero value; otherwise banded at 200 and 400 g/kWh. -/
def get_co2_info (data : GridData) : Except Unit String :=
  let co2 := data.current.co2
  if optTruthy co2 = false then
    Except.ok "CO2-Daten sind nicht verfügbar."
  else
    let c := co2.getD 0
    let status := if c < 200 then "sehr sauber"
      else if c < 400 then "mittel" else "schmutzig"
    let emoji := if c < 200 then "🌱" else if c < 400 then "😐" else "🏭"
    Except.ok (emoji ++ " Aktuelle CO2-Intensität: " ++ fmtFixed 1 c ++
      " g/kWh (" ++ status ++ ")")

/-- `_get_charging_advice` (ai_assistant.py:215-226): the context dict
always carries the `price` key, so `current.get("price", 0)` yields the
stored value; when that value is null, the comparison
`price < avg * 0.85` raises a TypeError, embedded as `Except.error`. -/
def get_charging_advice (data : GridData) : Except Unit String :=
  match data.current.price with
  | none => Except.error ()
  | some price =>
    let avg := data.average_price.getD (3/10)
    let cheapest := pyMinBy FPoint.price data.forecast
    if price < avg * (85/100) then
      Except.ok ("✅ Jetzt laden! Aktueller Preis (" ++ fmtFixed 4 price ++
        " €/kWh) ist günstig.")
    else
      Except.ok ("⏳ Besser warten bis " ++ ((cheapest.map FPoint.hour).getD "N/A") ++
        " (" ++ fmtFixed 4 ((cheapest.map FPoint.price).getD 0) ++
        " €/kWh). Aktuell zu teuer.")

/-- `_get_device_advice` (ai_assistant.py:236-250): a null stored price
makes `price * power_kwh` raise a TypeError, embedded as `Except.error`;
otherwise first minimum by price, cost difference, and the wait message
iff `savings > 0.05`. -/
def get_device_advice (data : GridData) (device : String) (power_kwh : ℚ) :
    Except Unit String :=
  match data.current.price with
  | none => Except.error ()
  | some price =>
    let cheapest := pyMinBy FPoint.price data.forecast
    let cost_now := price * power_kwh
    let cost_cheapest := ((cheapest.map FPoint.price).getD 0) * power_kwh
    let savings := cost_now - cost_cheapest
    if savings > 1/20 then
      Except.ok ("⏳ " ++ device ++ " besser um " ++
        ((cheapest.map FPoint.hour).getD "N/A") ++ " laufen lassen. Spart " ++
        fmtFixed 2 savings ++ "€ (jetzt: " ++ fmtFixed 2 cost_now ++
        "€ vs. dann: " ++ fmtFixed 2 cost_cheapest ++ "€)")
    else
      Except.ok ("✅ " ++ device ++ " kann jetzt laufen. Kosten: " ++
        fmtFixed 2 cost_now ++ "€ (kaum Unterschied zu günstigster Zeit)")

/-- `_get_washing_advice` (ai_assistant.py:228-230). -/
def get_washing_advice (data : GridData) : Except Unit String :=
  get_device_advice data "Waschmaschine" 2

/-- `_get_dishwasher_advice` (ai_assistant.py:232-234). -/
def get_dishwasher_advice (data : GridData) : Except Unit String :=
  get_device_advice data "Geschirrspüler" (3/2)

/-- The rule table of `SmartEnergyAssistant.__init__`
(ai_assistant.py:28-45), as the ordered list of keyword/handler pairs in
insertion order of the Python dict. -/
def rules : List (List Char × (GridData → Except Unit String)) :=
  [("preis".toList, get_price_info),
   ("price".toList, get_price_info),
   ("günstig".toList, get_cheapest_time),
   ("cheap".toList, get_cheapest_time),
   ("teuer".toList, get_expensive_time),
   ("expensive".toList, get_expensive_time),
   ("grün".toList, get_greenest_time),
   ("green".toList, get_greenest_time),
   ("sauber".toList, get_greenest_time),
   ("co2".toList, get_co2_info),
   ("laden".toList, get_charging_advice),
   ("charge".toList, get_charging_advice),
   ("waschen".toList, get_washing_advice),
   ("wash".toList, get_washing_advice),
   ("spülen".toList, get_dishwasher_advice),
   ("dishwasher".toList, get_dishwasher_advice)]

/-- `user_query.lower()` (ai_assistant.py:62), as characters; Lean's
`Char.toLower` covers the ASCII range, the keywords are already
lowercase. -/
def lowerQuery (q : String) : List Char := q.toList.map Char.toLower

/-- The dispatch loop of `ask` (ai_assistant.py:65-76): the first
keyword (in table order) contained in the lowered query fires; a handler
exception is logged and the scan continues with the remaining rules. -/
def scanRules : List (List Char × (GridData → Except Unit String)) →
    List Char → GridData → Option String
  | [], _, _ => none
  | (kw, h) :: rest, q, data =>
    if isSubstring kw q then
      match h data with
      | Except.ok answer => some answer
      | Except.error _ => scanRules rest q data
    else scanRules rest q data

/-- `_build_prompt` (ai_assistant.py:124-148): the values embedded into
the generative prompt; a null price or CO2 renders as the N/A marker,
modelled by keeping the `Option`. -/
def build_prompt (query : String) (data : GridData) : PromptData :=
  { price := data.current.price,
    co2 := data.current.co2,
    mixSolar := (data.current.mix.lookup "solar").getD 0,
    mixWind := (data.current.mix.lookup "wind").getD 0,
    mixCoal := (data.current.mix.lookup "coal").getD 0,
    cheapest := pyMinBy FPoint.price data.forecast,
    greenest := pyMinBy FPoint.co2 data.forecast,
    query := query }

/-- `_fallback_answer` (ai_assistant.py:252-259): the fixed apology
record, independent of the query. -/
def fallback_answer (query : String) : AskResult :=
  { answer := "Entschuldigung, ich konnte deine Frage nicht verarbeiten. Versuche konkretere Fragen wie \x27Wann ist Strom günstig?\x27 oder \x27Soll ich jetzt laden?\x27",
    type := "fallback", confidence := "low", processing_time_ms := 0 }

/-- `_ask_ollama` (ai_assistant.py:81-122): build the prompt, make the
bounded backend call; status 200 yields the generated answer with type
"ai", confidence "medium" and the elapsed time; any other status or any
exception (timeout, network error, absent backend) yields the fixed
fallback record. -/
def ask_ollama (outcome : OllamaOutcome) (query : String) (data : GridData) :
    AskResult :=
  let _prompt := build_prompt query data
  match outcome with
  | OllamaOutcome.failure => fallback_answer query
  | OllamaOutcome.response status body elapsed =>
    if status = 200 then
      { answer := body, type := "ai", confidence := "medium",
        processing_time_ms := elapsed }
    else fallback_answer query

/-- `ask` (ai_assistant.py:47-79): rule scan first, Ollama fallback when
no rule produces an answer. -/
def ask (outcome : OllamaOutcome) (query : String) (data : GridData) : AskResult :=
  match scanRules rules (lowerQuery query) data with
  | some answer =>
    { answer := answer, type := "instant", confidence := "high",
      processing_time_ms := 0 }
  | none => ask_ollama outcome query data

/-- Trivial hour-label function used for concrete evaluations. -/
def noHour : ℤ → String := fun _ => ""

/-- Concrete assistant context with every upstream signal missing:
exactly what `ask_assistant` builds when SMARD returns nothing. -/
def emptyContext : GridData := ask_assistant_grid_data none none [] []

/-- Concrete assistant context with a missing price and a zero CO2
reading. -/
def gappyContext : GridData := ask_assistant_grid_data none (some 0) [] []

/-- A concrete three-point forecast whose price minimum 2 occurs twice,
first at index 1. -/
def sampleForecast : List FPoint :=
  [{ timestamp := 0, hour := "14:00", price := 3, co2 := 300 },
   { timestamp := 3600000, hour := "15:00", price := 2, co2 := 280 },
   { timestamp := 7200000, hour := "16:00", price := 2, co2 := 350 }]

/- ------------------------------------------------------------------ -/
/- Helper lemmas -/
/- ------------------------------------------------------------------ -/

theorem rhe_abs (y : ℚ) : |(rhe y : ℚ) - y| ≤ 1/2 := by
  have h0 : (⌊y⌋ : ℚ) ≤ y := Int.floor_le y
  have h1 : y < (⌊y⌋ : ℚ) + 1 := Int.lt_floor_add_one y
  simp only [rhe]
  split_ifs with hf1 hf2 hpar
  · rw [abs_sub_comm, abs_of_nonneg (by linarith)]
    linarith
  · push_cast
    rw [abs_of_nonneg (by linarith)]
    push_neg at hf1
    linarith
  · rw [abs_sub_comm, abs_of_nonneg (by linarith)]
    push_neg at hf1 hf2
    linarith
  · push_cast
    rw [abs_of_nonneg (by linarith)]
    push_neg at hf1 hf2
    linarith

theorem pyRound4_abs (x : ℚ) : |pyRound4 x - x| ≤ 1/20000 := by
  have h := rhe_abs (x * 10000)
  have hrw : pyRound4 x - x = ((rhe (x * 10000) : ℚ) - x * 10000) / 10000 := by
    unfold pyRound4
    ring
  rw [hrw, abs_div, abs_of_nonneg (by norm_num : (0:ℚ) ≤ 10000)]
  rw [div_le_iff₀ (by norm_num : (0:ℚ) < 10000)]
  linarith

theorem pyMin1_spec {α : Type} (k : α → ℚ) (ys : List α) : ∀ b : α,
    k (pyMin1 k b ys) ≤ k b ∧
    (∀ y ∈ ys, k (pyMin1 k b ys) ≤ k y) ∧
    (pyMin1 k b ys = b ∨
      ∃ i, ∃ hi : i < ys.length, pyMin1 k b ys = ys.get ⟨i, hi⟩ ∧
        k (pyMin1 k b ys) < k b ∧
        ∀ j (hj : j < i), k (pyMin1 k b ys) < k (ys.get ⟨j, hj.trans hi⟩)) := by
  induction ys with
  | nil =>
    intro b
    refine ⟨le_refl _, ?_, Or.inl rfl⟩
    intro y hy
    cases hy
  | cons y t ih =>
    intro b
    by_cases hc : k y < k b
    · have hrw : pyMin1 k b (y :: t) = pyMin1 k y t := by
        show pyMin1 k (if k y < k b then y else b) t = pyMin1 k y t
        rw [if_pos hc]
      obtain ⟨h1, h2, h3⟩ := ih y
      rw [hrw]
      refine ⟨le_of_lt (lt_of_le_of_lt h1 hc), ?_, ?_⟩
      · intro z hz
        rcases List.mem_cons.mp hz with hz' | hz'
        · rw [hz']; exact h1
        · exact h2 z hz'
      · right
        rcases h3 with he | ⟨i, hi, hget, hlt, hpre⟩
        · refine ⟨0, Nat.succ_pos _, he, ?_, ?_⟩
          · calc k (pyMin1 k y t) ≤ k y := h1
              _ < k b := hc
          · intro j hj
            exact absurd hj (Nat.not_lt_zero j)
        · refine ⟨i + 1, Nat.succ_lt_succ hi, hget, lt_trans hlt hc, ?_⟩
          intro j hj
          cases j with
          | zero => exact lt_of_le_of_lt (le_of_eq rfl) hlt
          | succ j' => exact hpre j' (Nat.lt_of_succ_lt_succ hj)
    · have hrw : pyMin1 k b (y :: t) = pyMin1 k b t := by
        show pyMin1 k (if k y < k b then y else b) t = pyMin1 k b t
        rw [if_neg hc]
      push_neg at hc
      obtain ⟨h1, h2, h3⟩ := ih b
      rw [hrw]
      refine ⟨h1, ?_, ?_⟩
      · intro z hz
        rcases List.mem_cons.mp hz with hz' | hz'
        · rw [hz']; exact le_trans h1 hc
        · exact h2 z hz'
      · rcases h3 with he | ⟨i, hi, hget, hlt, hpre⟩
        · exact Or.inl he
        · right
          refine ⟨i + 1, Nat.succ_lt_succ hi, hget, hlt, ?_⟩
          intro j hj
          cases j with
          | zero => exact lt_of_lt_of_le hlt hc
          | succ j' => exact hpre j' (Nat.lt_of_succ_lt_succ hj)

theorem pyMinBy_spec {α : Type} (k : α → ℚ) (l : List α) (hne : l ≠ []) :
    ∃ i, ∃ hi : i < l.length,
      pyMinBy k l = some (l.get ⟨i, hi⟩) ∧
      (∀ j (hj : j < l.length), k (l.get ⟨i, hi⟩) ≤ k (l.get ⟨j, hj⟩)) ∧
      (∀ j (hj : j < i), k (l.get ⟨i, hi⟩) < k (l.get ⟨j, hj.trans hi⟩)) := by
  cases l with
  | nil => exact absurd rfl hne
  | cons x xs =>
    obtain ⟨h1, h2, h3⟩ := pyMin1_spec k xs x
    rcases h3 with he | ⟨i, hi, hget, hlt, hpre⟩
    · rw [he] at h1 h2
      refine ⟨0, Nat.succ_pos _, ?_, ?_, ?_⟩
      · show some (pyMin1 k x xs) = some x
        rw [he]
      · intro j hj
        show k x ≤ k ((x :: xs).get ⟨j, hj⟩)
        cases j with
        | zero => exact le_refl _
        | succ j' =>
          show k x ≤ k (xs.get ⟨j', Nat.lt_of_succ_lt_succ hj⟩)
          exact h2 _ (List.get_mem xs _ _)
      · intro j hj
        exact absurd hj (Nat.not_lt_zero j)
    · rw [hget] at h1 h2 hlt hpre
      refine ⟨i + 1, Nat.succ_lt_succ hi, ?_, ?_, ?_⟩
      · show some (pyMin1 k x xs) = some (xs.get ⟨i, hi⟩)
        rw [hget]
      · intro j hj
        show k (xs.get ⟨i, hi⟩) ≤ k ((x :: xs).get ⟨j, hj⟩)
        cases j with
        | zero => exact h1
        | succ j' =>
          show k (xs.get ⟨i, hi⟩) ≤ k (xs.get ⟨j', Nat.lt_of_succ_lt_succ hj⟩)
          exact h2 _ (List.get_mem xs _ _)
      · intro j hj
        show k (xs.get ⟨i, hi⟩) < k ((x :: xs).get ⟨j, hj.trans (Nat.succ_lt_succ hi)⟩)
        cases j with
        | zero => exact hlt
        | succ j' =>
          show k (xs.get ⟨i, hi⟩) < k (xs.get ⟨j', by omega⟩)
          exact hpre j' (Nat.lt_of_succ_lt_succ hj)

theorem scanRules_first (q : List Char) (data : GridData) :
    ∀ (rs : List (List Char × (GridData → Except Unit String)))
      (i : ℕ) (hi : i < rs.length),
      isSubstring (rs.get ⟨i, hi⟩).1 q = true →
      (∀ j (hj : j < i), isSubstring (rs.get ⟨j, hj.trans hi⟩).1 q = false) →
      ∀ ans, (rs.get ⟨i, hi⟩).2 data = Except.ok ans →
      scanRules rs q data = some ans := by
  intro rs
  induction rs with
  | nil =>
    intro i hi
    exact absurd hi (Nat.not_lt_zero i)
  | cons r rest ih =>
    intro i hi hmatch hearlier ans hok
    obtain ⟨kw, h⟩ := r
    cases i with
    | zero =>
      have hm : isSubstring kw q = true := hmatch
      have hk : h data = Except.ok ans := hok
      show (if isSubstring kw q then
        (match h data with
         | Except.ok answer => some answer
         | Except.error _ => scanRules rest q data)
        else scanRules rest q data) = some ans
      rw [if_pos hm, hk]
    | succ i' =>
      have h0 : isSubstring kw q = false := hearlier 0 (Nat.succ_pos i')
      have hmatch' : isSubstring (rest.get ⟨i', Nat.lt_of_succ_lt_succ hi⟩).1 q = true :=
        hmatch
      have hok' : (rest.get ⟨i', Nat.lt_of_succ_lt_succ hi⟩).2 data = Except.ok ans := hok
      show (if isSubstring kw q then
        (match h data with
         | Except.ok answer => some answer
         | Except.error _ => scanRules rest q data)
        else scanRules rest q data) = some ans
      rw [if_neg (by rw [h0]; exact Bool.false_ne_true)]
      exact ih i' (Nat.lt_of_succ_lt_succ hi) hmatch'
        (fun j hj => hearlier (j + 1) (Nat.succ_lt_succ hj)) ans hok'

theorem scanRules_none (q : List Char) (data : GridData) :
    ∀ (rs : List (List Char × (GridData → Except Unit String))),
      (∀ r ∈ rs, isSubstring r.1 q = false) →
      scanRules rs q data = none := by
  intro rs
  induction rs with
  | nil => intro _; rfl
  | cons r rest ih =>
    intro hall
    obtain ⟨kw, h⟩ := r
    show (if isSubstring kw q then
      (match h data with
       | Except.ok answer => some answer
       | Except.error _ => scanRules rest q data)
      else scanRules rest q data) = none
    rw [if_neg (by rw [hall (kw, h) (List.mem_cons_self _ _)]; exact Bool.false_ne_true)]
    exact ih (fun r hr => hall r (List.mem_cons_of_mem _ hr))

theorem synthForecast_length (fmtHour : ℤ → String) (rawCo2 : Option ℚ)
    (p : ℚ) (now : ℤ) (hours : ℤ) :
    (synthForecast fmtHour rawCo2 p now hours).length = hours.toNat := by
  simp [synthForecast]

theorem synthForecast_get (fmtHour : ℤ → String) (rawCo2 : Option ℚ)
    (p : ℚ) (now : ℤ) (hours : ℤ) (i : ℕ)
    (hi : i < (synthForecast fmtHour rawCo2 p now hours).length) :
    (synthForecast fmtHour rawCo2 p now hours).get ⟨i, hi⟩ =
      synthPoint fmtHour rawCo2 p now i := by
  have hi' : i < hours.toNat := by
    rw [← synthForecast_length fmtHour rawCo2 p now hours]
    exact hi
  simp [synthForecast]

theorem synthPoint_price_bound (fmtHour : ℤ → String) (rawCo2 : Option ℚ)
    (p : ℚ) (now : ℤ) (i : ℕ) :
    |(synthPoint fmtHour rawCo2 p now i).price - p| ≤ 9/100 := by
  have hm12 : ((i % 12 : ℕ) : ℚ) ≤ 11 := by
    have : i % 12 < 12 := Nat.mod_lt i (by norm_num)
    exact_mod_cast Nat.lt_succ_iff.mp this
  have hm12' : (0 : ℚ) ≤ ((i % 12 : ℕ) : ℚ) := Nat.cast_nonneg _
  have hm2 : ((i % 2 : ℕ) : ℚ) ≤ 1 := by
    have : i % 2 < 2 := Nat.mod_lt i (by norm_num)
    exact_mod_cast Nat.lt_succ_iff.mp this
  have hm2' : (0 : ℚ) ≤ ((i % 2 : ℕ) : ℚ) := Nat.cast_nonneg _
  have hvar : |(((i % 12 : ℕ) : ℚ) - 6) * (1/100) +
      (if i % 4 = 0 then (((i % 2 : ℕ) : ℚ) - 1/2) * (3/100) else 0)| ≤ 3/40 := by
    split_ifs with h4
    · rw [abs_le]
      constructor <;> nlinarith
    · rw [abs_le]
      constructor <;> nlinarith
  have hround := pyRound4_abs (p + ((((i % 12 : ℕ) : ℚ) - 6) * (1/100) +
    (if i % 4 = 0 then (((i % 2 : ℕ) : ℚ) - 1/2) * (3/100) else 0)))
  have htri := abs_sub_le ((synthPoint fmtHour rawCo2 p now i).price)
    (p + ((((i % 12 : ℕ) : ℚ) - 6) * (1/100) +
      (if i % 4 = 0 then (((i % 2 : ℕ) : ℚ) - 1/2) * (3/100) else 0))) p
  have heq : |p + ((((i % 12 : ℕ) : ℚ) - 6) * (1/100) +
      (if i % 4 = 0 then (((i % 2 : ℕ) : ℚ) - 1/2) * (3/100) else 0)) - p| =
      |(((i % 12 : ℕ) : ℚ) - 6) * (1/100) +
      (if i % 4 = 0 then (((i % 2 : ℕ) : ℚ) - 1/2) * (3/100) else 0)| := by
    congr 1
    ring
  have hpr : (synthPoint fmtHour rawCo2 p now i).price =
      pyRound4 (p + ((((i % 12 : ℕ) : ℚ) - 6) * (1/100) +
        (if i % 4 = 0 then (((i % 2 : ℕ) : ℚ) - 1/2) * (3/100) else 0))) := rfl
  rw [heq] at htri
  rw [hpr] at htri ⊢
  linarith

/- ------------------------------------------------------------------ -/
/- Claims -/
/- ------------------------------------------------------------------ -/

/-- C1, counterexample: with every upstream signal null, the assistant
context built by `ask_assistant` hands an absent price to the rule
handlers and to the generative prompt builder, so the claimed
"never null or absent downstream of the Fallback Policy boundary"
fails on the assistant path. -/
theorem c1_null_reaches_handlers :
    emptyContext.current.price = none ∧
    emptyContext.current.co2 = none ∧
    (build_prompt "Lohnt sich ein Balkonkraftwerk?" emptyContext).price = none :=
  ⟨rfl, rfl, rfl⟩

/-- C1, amended: the fallback in the grid snapshot endpoint fully
populates the snapshot (in particular the mix is non-empty with non-zero
sum), but the assistant path passes the raw upstream values unchanged to
the rule handlers and prompt builder, which guard individually. -/
theorem c1_fallback_boundary_amended :
    ∀ (price co2 : Option ℚ) (mix : List (String × ℚ)) (forecast : List FPoint),
      ((get_current_grid_data price co2 mix).energy_mix ≠ [] ∧
        mixSum (get_current_grid_data price co2 mix).energy_mix ≠ 0) ∧
      ((ask_assistant_grid_data price co2 mix forecast).current.price = price ∧
        (ask_assistant_grid_data price co2 mix forecast).current.co2 = co2 ∧
        (ask_assistant_grid_data price co2 mix forecast).current.mix = mix) := by
  intro price co2 mix forecast
  refine ⟨?_, rfl, rfl, rfl⟩
  have hx : (get_current_grid_data price co2 mix).energy_mix =
      if mix = [] ∨ mixSum mix = 0 then default_energy_mix else mix := rfl
  rw [hx]
  by_cases h : mix = [] ∨ mixSum mix = 0
  · rw [if_pos h]
    constructor
    · simp [default_energy_mix]
    · norm_num [mixSum, default_energy_mix]
  · rw [if_neg h]
    push_neg at h
    exact ⟨h.1, h.2⟩

/-- C2, counterexample: with a null upstream price, the first synthetic
forecast point has price `round(0.30 - 0.075, 4) = 0.225`, not the
`round(0.28 - 0.075, 4) = 0.205` that the claimed 0.28 default would
give; the device recommendation likewise resolves the null price to
0.30. -/
theorem c2_forecast_uses_030 :
    ((get_price_forecast noHour none none 0 1 "München").forecast.map FPoint.price) =
      [9/40] ∧
    ((synthForecast noHour none (28/100) 0 1).map FPoint.price) = [41/200] ∧
    (9/40 : ℚ) ≠ 41/200 ∧
    get_device_recommendation 2 none [] = device_recommendation 2 (3/10) [] := by
  have hr1 : List.range 1 = [0] := rfl
  refine ⟨?_, ?_, by norm_num, rfl⟩
  · show ((synthForecast noHour none (orDefault none (3/10)) 0 1).map FPoint.price) = [9/40]
    simp only [synthForecast, Int.toNat_one, hr1, List.map_map, List.map_cons,
      List.map_nil, Function.comp_apply]
    norm_num [synthPoint, orDefault, optTruthy, pyRound4, rhe]
  · simp only [synthForecast, Int.toNat_one, hr1, List.map_map, List.map_cons,
      List.map_nil, Function.comp_apply]
    norm_num [synthPoint, pyRound4, rhe]

/-- C2, amended: when the upstream current price is null, the grid
snapshot endpoint substitutes 0.28, while the forecast synthesizer and
the device recommendation substitute 0.30 (`or 0.30`). -/
theorem c2_null_price_defaults :
    ∀ (p co2 : Option ℚ) (mix : List (String × ℚ)) (fmtHour : ℤ → String)
      (rawCo2 : Option ℚ) (now hours : ℤ) (loc : String) (power : ℚ)
      (forecast : List FPoint), p = none →
      (get_current_grid_data p co2 mix).price = 28/100 ∧
      (get_price_forecast fmtHour rawCo2 p now hours loc).forecast =
        synthForecast fmtHour rawCo2 (3/10) now hours ∧
      get_device_recommendation power p forecast =
        device_recommendation power (3/10) forecast := by
  intro p co2 mix fmtHour rawCo2 now hours loc power forecast hp
  subst hp
  exact ⟨rfl, rfl, rfl⟩

theorem c2_null_price_defaults_witness :
    (get_current_grid_data none (some 300) []).price = 28/100 ∧
    (get_price_forecast noHour none none 0 24 "München").forecast =
      synthForecast noHour none (3/10) 0 24 ∧
    get_device_recommendation 2 none [] = device_recommendation 2 (3/10) [] :=
  c2_null_price_defaults none (some 300) [] noHour none 0 24 "München" 2 [] rfl

/-- C3, counterexample: a successful backend call is tagged with type
"ai", not "generated". -/
theorem c3_success_type_is_ai :
    (ask_ollama (OllamaOutcome.response 200 "Guten Morgen" 1234)
      "Wie funktioniert der Strommarkt?" emptyContext).type = "ai" ∧
    "ai" ≠ "generated" :=
  ⟨rfl, by decide⟩

/-- C3, amended: a status-200 backend response yields the generated
answer with type "ai" (the code's tag for generated results), confidence
"medium" and the elapsed latency; any failure (timeout, network error,
absent backend) or non-200 status yields the fixed apology record with
type "fallback", confidence "low" and latency 0, and the apology record
does not depend on the query; no error is propagated because
`ask_ollama` is total. -/
theorem c3_ollama_bridge_contract :
    ∀ (q : String) (d : GridData) (o : OllamaOutcome),
      (∀ body t, o = OllamaOutcome.response 200 body t →
        ask_ollama o q d =
          { answer := body, type := "ai", confidence := "medium", processing_time_ms := t }) ∧
      ((o = OllamaOutcome.failure ∨
          ∃ s body t, o = OllamaOutcome.response s body t ∧ s ≠ 200) →
        ask_ollama o q d = fallback_answer q) ∧
      (∀ q2 : String, fallback_answer q = fallback_answer q2) := by
  intro q d o
  refine ⟨?_, ?_, fun q2 => rfl⟩
  · intro body t h
    subst h
    rfl
  · intro h
    rcases h with h | ⟨s, body, t, h, hs⟩
    · subst h; rfl
    · subst h
      show (if s = 200 then _ else fallback_answer q) = fallback_answer q
      rw [if_neg hs]

theorem c3_ollama_bridge_contract_witness :
    ask_ollama (OllamaOutcome.response 200 "Guten Tag" 42) "Testfrage" emptyContext =
      { answer := "Guten Tag", type := "ai", confidence := "medium", processing_time_ms := 42 } ∧
    ask_ollama OllamaOutcome.failure "Testfrage" emptyContext =
      fallback_answer "Testfrage" :=
  ⟨(c3_ollama_bridge_contract "Testfrage" emptyContext _).1 "Guten Tag" 42 rfl,
   (c3_ollama_bridge_contract "Testfrage" emptyContext _).2.1 (Or.inl rfl)⟩

/-- C5, counterexample: a zero (hence non-null) upstream price is not
preserved: the fallback block replaces it with 0.28, so the policy is
not the identity on all fully-populated inputs. -/
theorem c5_zero_price_not_identity :
    (get_current_grid_data (some 0) (some 100) [("solar", 60), ("wind", 40)]).price =
      28/100 ∧
    (28/100 : ℚ) ≠ 0 :=
  ⟨rfl, by norm_num⟩

/-- C5, amended: the fallback block is the identity exactly on inputs
whose price and CO2 are truthy (non-null and non-zero) and whose mix is
non-empty with non-zero sum; every falsy/empty/zero-sum component is
replaced by its exact fixed default. -/
theorem c5_fallback_policy_amended :
    ∀ (p c : Option ℚ) (m : List (String × ℚ)),
      (optTruthy p = true → optTruthy c = true → m ≠ [] → mixSum m ≠ 0 →
        get_current_grid_data p c m =
          { price := p.getD 0, co2 := c.getD 0, energy_mix := m }) ∧
      (optTruthy p = false → optTruthy c = false → (m = [] ∨ mixSum m = 0) →
        get_current_grid_data p c m =
          { price := 28/100, co2 := 320, energy_mix := default_energy_mix }) := by
  intro p c m
  constructor
  · intro hp hc hm hs
    simp [get_current_grid_data, hp, hc, hm, hs]
  · intro hp hc hor
    rcases hor with h | h <;> simp [get_current_grid_data, hp, hc, h]

theorem c5_fallback_policy_witness :
    get_current_grid_data (some 2) (some 300) [("solar", 60), ("wind", 40)] =
      { price := 2, co2 := 300, energy_mix := [("solar", 60), ("wind", 40)] } ∧
    get_current_grid_data none none [] =
      { price := 28/100, co2 := 320, energy_mix := default_energy_mix } :=
  ⟨(c5_fallback_policy_amended (some 2) (some 300) [("solar", 60), ("wind", 40)]).1
      rfl rfl (by simp) (by norm_num [mixSum]),
   (c5_fallback_policy_amended none none []).2 rfl rfl (Or.inl rfl)⟩

/-- C7: evaluating the forecast endpoint at the negative horizon -1: the
loop `for i in range(hours)` is empty, so the endpoint silently returns
a normal response with an empty forecast and the echoed horizon, instead
of rejecting the contract violation with a descriptive error as the
specification requires. -/
theorem c7_negative_horizon_returns_empty :
    (get_price_forecast noHour none none 0 (-1) "München").forecast = [] ∧
    (get_price_forecast noHour none none 0 (-1) "München").hours = -1 :=
  ⟨rfl, rfl⟩

/-- C9: on an empty forecast the recommendation uses `{}.get("price", 0)`,
so the best-slot cost is 0, the reported savings equal the reported
current cost exactly, and the best-time label is "N/A". -/
theorem c9_empty_forecast_costs :
    ∀ (power price : ℚ),
      (device_recommendation power price []).cost_best = 0 ∧
      (device_recommendation power price []).potential_savings =
        (device_recommendation power price []).cost_now ∧
      (device_recommendation power price []).best_time = "N/A" := by
  intro power price
  refine ⟨?_, ?_, rfl⟩
  · show pyRound2 (((pyMinBy FPoint.price ([] : List FPoint)).map FPoint.price).getD 0 * power) = 0
    norm_num [pyMinBy, pyRound2, rhe]
  · show pyRound2 (price * power - ((pyMinBy FPoint.price ([] : List FPoint)).map FPoint.price).getD 0 * power) =
      pyRound2 (price * power)
    norm_num [pyMinBy]

/-- C10: a null or zero current price (respectively CO2 value) in the
context makes the price handler (respectively the CO2 handler) return
the fixed well-formed not-available message via the `if not price`
guard, instead of raising. -/
theorem c10_handlers_guard_missing_data :
    ∀ d : GridData,
      ((d.current.price = none ∨ d.current.price = some 0) →
        get_price_info d = Except.ok "Aktuelle Preisdaten sind nicht verfügbar.") ∧
      ((d.current.co2 = none ∨ d.current.co2 = some 0) →
        get_co2_info d = Except.ok "CO2-Daten sind nicht verfügbar.") := by
  intro d
  constructor
  · intro h
    have hf : optTruthy d.current.price = false := by
      rcases h with h | h <;> rw [h] <;> rfl
    simp [get_price_info, hf]
  · intro h
    have hf : optTruthy d.current.co2 = false := by
      rcases h with h | h <;> rw [h] <;> rfl
    simp [get_co2_info, hf]

theorem c10_handlers_guard_witness :
    get_price_info gappyContext = Except.ok "Aktuelle Preisdaten sind nicht verfügbar." ∧
    get_co2_info gappyContext = Except.ok "CO2-Daten sind nicht verfügbar." :=
  ⟨(c10_handlers_guard_missing_data gappyContext).1 (Or.inl rfl),
   (c10_handlers_guard_missing_data gappyContext).2 (Or.inr rfl)⟩

/-- C4: for a positive energy draw, any current price and a non-empty
forecast, the recommendation selects the first forecast point attaining
the minimum price (ties broken by sequence order), the reported costs
and savings are the rounded exact products and difference
`cost_now - cost_at_best`, and the decision is "now" iff the exact
savings are below the 0.05 threshold. -/
theorem c4_recommend_min_savings_threshold :
    ∀ (power current_price : ℚ) (forecast : List FPoint),
      0 < power → forecast ≠ [] →
      ∃ i, ∃ hi : i < forecast.length,
        pyMinBy FPoint.price forecast = some (forecast.get ⟨i, hi⟩) ∧
        (∀ j (hj : j < forecast.length),
          (forecast.get ⟨i, hi⟩).price ≤ (forecast.get ⟨j, hj⟩).price) ∧
        (∀ j (hj : j < i),
          (forecast.get ⟨i, hi⟩).price < (forecast.get ⟨j, hj.trans hi⟩).price) ∧
        (device_recommendation power current_price forecast).cost_now =
          pyRound2 (current_price * power) ∧
        (device_recommendation power current_price forecast).cost_best =
          pyRound2 ((forecast.get ⟨i, hi⟩).price * power) ∧
        (device_recommendation power current_price forecast).potential_savings =
          pyRound2 (current_price * power - (forecast.get ⟨i, hi⟩).price * power) ∧
        ((device_recommendation power current_price forecast).recommendation = "now" ↔
          current_price * power - (forecast.get ⟨i, hi⟩).price * power < 1/20) := by
  intro power cp forecast hpow hne
  obtain ⟨i, hi, hmin, hle, hstrict⟩ := pyMinBy_spec FPoint.price forecast hne
  have hbest : ((pyMinBy FPoint.price forecast).map FPoint.price).getD 0 =
      (forecast.get ⟨i, hi⟩).price := by simp [hmin]
  refine ⟨i, hi, hmin, hle, hstrict, rfl, ?_, ?_, ?_⟩
  · show pyRound2 (((pyMinBy FPoint.price forecast).map FPoint.price).getD 0 * power) =
      pyRound2 ((forecast.get ⟨i, hi⟩).price * power)
    rw [hbest]
  · show pyRound2 (cp * power -
        ((pyMinBy FPoint.price forecast).map FPoint.price).getD 0 * power) =
      pyRound2 (cp * power - (forecast.get ⟨i, hi⟩).price * power)
    rw [hbest]
  · show (if cp * power - ((pyMinBy FPoint.price forecast).map FPoint.price).getD 0 * power
        < 1/20 then "now" else "wait") = "now" ↔
      cp * power - (forecast.get ⟨i, hi⟩).price * power < 1/20
    rw [hbest]
    constructor
    · intro heq
      by_contra hlt
      rw [if_neg hlt] at heq
      exact absurd heq (by decide)
    · intro hlt
      rw [if_pos hlt]

theorem c4_recommend_witness :
    0 < (2 : ℚ) ∧ sampleForecast ≠ [] ∧
    (∃ i, ∃ hi : i < sampleForecast.length,
      pyMinBy FPoint.price sampleForecast = some (sampleForecast.get ⟨i, hi⟩) ∧
      (∀ j (hj : j < sampleForecast.length),
        (sampleForecast.get ⟨i, hi⟩).price ≤ (sampleForecast.get ⟨j, hj⟩).price) ∧
      (∀ j (hj : j < i),
        (sampleForecast.get ⟨i, hi⟩).price < (sampleForecast.get ⟨j, hj.trans hi⟩).price) ∧
      (device_recommendation 2 3 sampleForecast).cost_now = pyRound2 (3 * 2) ∧
      (device_recommendation 2 3 sampleForecast).cost_best =
        pyRound2 ((sampleForecast.get ⟨i, hi⟩).price * 2) ∧
      (device_recommendation 2 3 sampleForecast).potential_savings =
        pyRound2 (3 * 2 - (sampleForecast.get ⟨i, hi⟩).price * 2) ∧
      ((device_recommendation 2 3 sampleForecast).recommendation = "now" ↔
        3 * 2 - (sampleForecast.get ⟨i, hi⟩).price * 2 < 1/20)) :=
  ⟨by norm_num, by simp [sampleForecast],
   c4_recommend_min_savings_threshold 2 3 sampleForecast (by norm_num)
     (by simp [sampleForecast])⟩

/-- C6: for any non-negative horizon the synthesizer yields exactly that
many points (empty at 0), the point timestamps start at `now` and grow
by exactly one hour per index, each price follows the documented
`round(p + variation, 4)` formula and stays within `p ± 0.09`, and at
`p = 0.30` the first point prices at 0.225. -/
theorem c6_forecast_synthesis :
    ∀ (fmtHour : ℤ → String) (rawCo2 : Option ℚ) (p : ℚ) (now : ℤ) (hours : ℤ),
      0 ≤ hours →
      (synthForecast fmtHour rawCo2 p now hours).length = hours.toNat ∧
      ((hours.toNat : ℤ) = hours) ∧
      (hours = 0 → synthForecast fmtHour rawCo2 p now hours = []) ∧
      (∀ i (hi : i < (synthForecast fmtHour rawCo2 p now hours).length),
        ((synthForecast fmtHour rawCo2 p now hours).get ⟨i, hi⟩).timestamp =
          now + (i : ℤ) * 3600000 ∧
        ((synthForecast fmtHour rawCo2 p now hours).get ⟨i, hi⟩).price =
          pyRound4 (p + ((((i % 12 : ℕ) : ℚ) - 6) * (1/100) +
            (if i % 4 = 0 then (((i % 2 : ℕ) : ℚ) - 1/2) * (3/100) else 0))) ∧
        |((synthForecast fmtHour rawCo2 p now hours).get ⟨i, hi⟩).price - p| ≤ 9/100) ∧
      (p = 3/10 → ∀ h0 : 0 < (synthForecast fmtHour rawCo2 p now hours).length,
        ((synthForecast fmtHour rawCo2 p now hours).get ⟨0, h0⟩).price = 9/40) := by
  intro fmtHour rawCo2 p now hours h
  refine ⟨synthForecast_length fmtHour rawCo2 p now hours, Int.toNat_of_nonneg h,
    ?_, ?_, ?_⟩
  · intro h0
    subst h0
    rfl
  · intro i hi
    rw [synthForecast_get]
    exact ⟨rfl, rfl, synthPoint_price_bound fmtHour rawCo2 p now i⟩
  · intro hp h0
    rw [synthForecast_get]
    subst hp
    show pyRound4 (3/10 + ((((0 % 12 : ℕ) : ℚ) - 6) * (1/100) +
      (if (0 : ℕ) % 4 = 0 then (((0 % 2 : ℕ) : ℚ) - 1/2) * (3/100) else 0))) = 9/40
    have harg : (3/10 : ℚ) + ((((0 % 12 : ℕ) : ℚ) - 6) * (1/100) +
        (if (0 : ℕ) % 4 = 0 then (((0 % 2 : ℕ) : ℚ) - 1/2) * (3/100) else 0)) = 9/40 := by
      norm_num
    rw [harg]
    norm_num [pyRound4, rhe]

theorem c6_forecast_synthesis_witness :
    (0 : ℤ) ≤ 24 ∧
    ((synthForecast noHour none (3/10) 0 24).length = (24 : ℤ).toNat ∧
    (((24 : ℤ).toNat : ℤ) = 24) ∧
    ((24 : ℤ) = 0 → synthForecast noHour none (3/10) 0 24 = []) ∧
    (∀ i (hi : i < (synthForecast noHour none (3/10) 0 24).length),
      ((synthForecast noHour none (3/10) 0 24).get ⟨i, hi⟩).timestamp =
        0 + (i : ℤ) * 3600000 ∧
      ((synthForecast noHour none (3/10) 0 24).get ⟨i, hi⟩).price =
        pyRound4 (3/10 + ((((i % 12 : ℕ) : ℚ) - 6) * (1/100) +
          (if i % 4 = 0 then (((i % 2 : ℕ) : ℚ) - 1/2) * (3/100) else 0))) ∧
      |((synthForecast noHour none (3/10) 0 24).get ⟨i, hi⟩).price - 3/10| ≤ 9/100) ∧
    ((3/10 : ℚ) = 3/10 → ∀ h0 : 0 < (synthForecast noHour none (3/10) 0 24).length,
      ((synthForecast noHour none (3/10) 0 24).get ⟨0, h0⟩).price = 9/40)) :=
  ⟨by decide, c6_forecast_synthesis noHour none (3/10) 0 24 (by decide)⟩

/-- C8: the router tests keywords in the fixed insertion order of the
rule table; when the query contains several keywords, the handler bound
to the keyword earliest in the table fires (regardless of positions in
the query text), producing an instant/high answer; when no keyword
matches, control passes to the generative bridge. -/
theorem c8_rule_router_priority :
    ∀ (o : OllamaOutcome) (q : String) (d : GridData),
      (∀ (i : ℕ) (hi : i < rules.length),
        isSubstring (rules.get ⟨i, hi⟩).1 (lowerQuery q) = true →
        (∀ j (hj : j < i), isSubstring (rules.get ⟨j, hj.trans hi⟩).1 (lowerQuery q) = false) →
        (∃ j, ∃ hj : j < rules.length, i < j ∧
          isSubstring (rules.get ⟨j, hj⟩).1 (lowerQuery q) = true) →
        ∀ ans, (rules.get ⟨i, hi⟩).2 d = Except.ok ans →
        ask o q d =
          { answer := ans, type := "instant", confidence := "high", processing_time_ms := 0 }) ∧
      ((∀ r ∈ rules, isSubstring r.1 (lowerQuery q) = false) →
        ask o q d = ask_ollama o q d) := by
  intro o q d
  constructor
  · intro i hi hmatch hearlier _hmulti ans hok
    have hscan := scanRules_first (lowerQuery q) d rules i hi hmatch hearlier ans hok
    unfold ask
    rw [hscan]
  · intro hall
    have hscan := scanRules_none (lowerQuery q) d rules hall
    unfold ask
    rw [hscan]

theorem c8_rule_router_priority_witness :
    ask OllamaOutcome.failure "laden preis" emptyContext =
      { answer := "Aktuelle Preisdaten sind nicht verfügbar.", type := "instant",
        confidence := "high", processing_time_ms := 0 } ∧
    ask OllamaOutcome.failure "hallo" emptyContext =
      ask_ollama OllamaOutcome.failure "hallo" emptyContext :=
  ⟨(c8_rule_router_priority OllamaOutcome.failure "laden preis" emptyContext).1
      0 (by decide) (by decide) (fun j hj => absurd hj (Nat.not_lt_zero j))
      ⟨10, by decide, by decide, by decide⟩
      "Aktuelle Preisdaten sind nicht verfügbar." rfl,
   (c8_rule_router_priority OllamaOutcome.failure "hallo" emptyContext).2 (by decide)⟩
